import Mathlib

/-!
Verification development for the PetPlantr repository (src/api_server.py and
src/src/api/routes/breed.py).  The Python functions relevant to the claims are
shallowly embedded as executable Lean definitions: Python floats (timestamps,
progress percentages, confidences) become rationals, Python dicts become
association lists or structures, and raising an exception becomes an explicit
error value.  Line numbers in doc comments refer to the source files.
-/

namespace PetPlantr

/-! ## Generic association-list lookup (Python dict read access) -/

/-- First-match lookup in an association list, mirroring a Python dict read
(`d.get(key)` on a dict built from a literal with distinct keys). -/
def dict_find {α : Type} : List (String × α) → String → Option α
  | [], _ => none
  | (k, v) :: rest, key => if k = key then some v else dict_find rest key

/-! ## Rate limiting (api_server.py lines 328-383) -/

/-- Python truthiness for an optional string: `None` and the empty string are
falsy, every other string is truthy. -/
def py_truthy : Option String → Bool
  | none => false
  | some s => if s = "" then false else true

/-- Python `a or dflt` for an optional string `a` under Python truthiness:
keep `a` when it is a non-empty string, otherwise use `dflt`. -/
def py_str_or (v : Option String) (dflt : String) : String :=
  match v with
  | none => dflt
  | some s => if s = "" then dflt else s

/-- Python `int(q)` on a rational (truncation toward zero), as applied to the
float `record['reset_time'] - now` at api_server.py line 379. -/
def py_int (q : ℚ) : Int :=
  if 0 ≤ q then ⌊q⌋ else ⌈q⌉

/-- The value `MAX_REQUESTS_PER_HOUR = 50` (api_server.py line 30). -/
def MAX_REQUESTS_PER_HOUR : Nat := 50

/-- The fixed window length `hour_ms = 3600` seconds (api_server.py line 363). -/
def hour_ms : ℚ := 3600

/-- One entry of the `request_log` dict (api_server.py lines 366, 369):
a Python dict with keys `count` and `reset_time`. -/
structure RateRecord where
  count : Nat
  reset_time : ℚ
  deriving DecidableEq

/-- Outcome of one call to `check_rate_limit_enhanced` for a given client key:
either the request is admitted (the function returns the allowed dict) with the
given stored record, or an HTTP 429 is raised whose detail message embeds
`int(record.reset_time - now)` seconds (api_server.py lines 376-380). -/
inductive RateDecision where
  | allowed (record : RateRecord)
  | rejected (retry_after_seconds : Int)
  deriving DecidableEq

/-- The state transition of `check_rate_limit_enhanced` (api_server.py lines
362-383) for one client key.  `entry` is the current `request_log` entry for
that key (`none` when absent), `now` is `time.time()`.  Returns the decision
together with the entry stored after the call.  The Python function also
returns a dict `allowed=True, user_id=...`; only the admission decision and
record transition matter to the claims. -/
def check_rate_limit_enhanced_step (entry : Option RateRecord) (now : ℚ) :
    RateDecision × Option RateRecord :=
  match entry with
  | none => (.allowed ⟨1, now + hour_ms⟩, some ⟨1, now + hour_ms⟩)
  | some record =>
    if now > record.reset_time then
      (.allowed ⟨1, now + hour_ms⟩, some ⟨1, now + hour_ms⟩)
    else if record.count ≥ MAX_REQUESTS_PER_HOUR then
      (.rejected (py_int (record.reset_time - now)), some record)
    else
      (.allowed ⟨record.count + 1, record.reset_time⟩,
        some ⟨record.count + 1, record.reset_time⟩)

/-- The state transition of the simpler `check_rate_limit` (api_server.py lines
328-351) for one user key.  State is the stored list of request timestamps
(`user_requests[user_id]`).  The function first prunes timestamps older than
one hour (the pruned list is committed back to the store), then rejects when
100 or more remain, else appends the current time and admits. -/
def check_rate_limit_step (times : List ℚ) (now : ℚ) : Bool × List ℚ :=
  let pruned := times.filter (fun t => now - t < 3600)
  if pruned.length ≥ 100 then (false, pruned)
  else (true, pruned ++ [now])

/-- Modelled from the spec (section 4.2), for the refinement claim about the two
limiters: the generic fixed-window state machine that the spec says both
limiter instances implement, parameterized by threshold and window.  The reject
branch carries `reset_at - now` exactly as the spec words it. -/
inductive SpecRateDecision where
  | granted (record : RateRecord)
  | reject (retry_after : ℚ)
  deriving DecidableEq

/-- Modelled from the spec (section 4.2): one step of the spec fixed-window
machine.  If no record exists, or now > reset_at: count=1, reset_at=now+window,
admit.  Else if count < threshold: increment, admit.  Else reject with
retry_after = reset_at - now, without incrementing. -/
def spec_fixed_window_step (threshold : Nat) (window : ℚ)
    (entry : Option RateRecord) (now : ℚ) : SpecRateDecision × Option RateRecord :=
  match entry with
  | none => (.granted ⟨1, now + window⟩, some ⟨1, now + window⟩)
  | some r =>
    if now > r.reset_time then
      (.granted ⟨1, now + window⟩, some ⟨1, now + window⟩)
    else if r.count < threshold then
      (.granted ⟨r.count + 1, r.reset_time⟩, some ⟨r.count + 1, r.reset_time⟩)
    else
      (.reject (r.reset_time - now), some r)

/-- Map a spec fixed-window decision to the decision actually produced by
`check_rate_limit_enhanced`: the retry-after amount is truncated by `int(...)`
when embedded in the HTTP 429 detail message. -/
def truncate_decision : SpecRateDecision → RateDecision
  | .granted r => .allowed r
  | .reject q => .rejected (py_int q)

/-- Run a sequence of requests (arrival times, in order) through
`check_rate_limit` for one user key, starting from an empty log.  Returns the
admission decisions in order and the final stored timestamp list. -/
def run_check_rate_limit (times : List ℚ) : List Bool × List ℚ :=
  times.foldl
    (fun acc now =>
      let r := check_rate_limit_step acc.2 now
      (acc.1 ++ [r.1], r.2))
    ([], [])

/-- Run a sequence of requests through the spec fixed-window machine for one
key, starting from no record.  Returns the admission decisions (true = admit)
and the final record. -/
def run_spec_fixed_window (threshold : Nat) (window : ℚ) (times : List ℚ) :
    List Bool × Option RateRecord :=
  times.foldl
    (fun acc now =>
      let r := spec_fixed_window_step threshold window acc.2 now
      (acc.1 ++ [match r.1 with | .granted _ => true | .reject _ => false], r.2))
    ([], none)

/-- Request arrival times distinguishing the sliding-window log of
`check_rate_limit` from the spec fixed-window machine at the same threshold
(100) and window (3600): one request at t=0, ninety-nine at t=2000, then one at
t=3601 and one at t=3602. -/
def c6_trace : List ℚ := 0 :: (List.replicate 99 2000 ++ [3601, 3602])

/-! ## Client key extraction (api_server.py lines 356-360) -/

/-- The `client_id` computation in `check_rate_limit_enhanced`.  The Python
expression is `a or b or str(c.host) if c else 'anonymous'`, which Python
parses as `(a or b or str(c.host)) if c else 'anonymous'`: when the connection
has no client address the result is the anonymous bucket regardless of any
header.  `x_forwarded_for` and `x_real_ip` are the header values (`none` when
the header is absent), `request_client_host` is the raw connection address
(`none` when `request.client` is `None`). -/
def client_id_of (x_forwarded_for x_real_ip request_client_host : Option String) :
    String :=
  match request_client_host with
  | none => "anonymous"
  | some host => py_str_or x_forwarded_for (py_str_or x_real_ip host)

/-! ## External job poller (api_server.py lines 1197-1215) -/

/-- Replicate job status string as reported by the provider. -/
inductive ReplicateStatus where
  | succeeded
  | failed
  | other (s : String)
  deriving DecidableEq

/-- `result['status'] in ['succeeded', 'failed']` (api_server.py line 1209). -/
def is_terminal : ReplicateStatus → Bool
  | .succeeded => true
  | .failed => true
  | .other _ => false

/-- One response of the provider status endpoint: the HTTP transport status and
the decoded prediction body (its status, plus the output payload). -/
structure PollResponse where
  http_status : Nat
  status : ReplicateStatus
  output : Option String
  deriving DecidableEq

/-- Outcome of `poll_replicate_job`: a terminal provider result (the raised
`Failed to check job status` transport error, and the raised
`Job polling timeout`, are the spec names ExternalServiceError and
PollingTimeout).  Each outcome records how many status queries were made and
how many seconds were spent in the fixed `asyncio.sleep(2)` delays. -/
inductive PollOutcome where
  | terminal (response : PollResponse) (queries : Nat) (slept_seconds : Nat)
  | transport_error (http_status : Nat) (queries : Nat) (slept_seconds : Nat)
  | timeout (queries : Nat) (slept_seconds : Nat)
  deriving DecidableEq

/-- The loop body of `poll_replicate_job` (api_server.py lines 1199-1213).
`provider i` is the response of the i-th status query (0-indexed), `queries`
counts queries already made, `slept` counts seconds already slept, and `fuel`
is the number of loop iterations remaining.  Each iteration queries once; a
non-200 transport status raises immediately; a terminal provider status returns
immediately; otherwise the loop sleeps 2 seconds and continues.  When the loop
exhausts its iterations the timeout is raised (api_server.py line 1215). -/
def poll_go (provider : Nat → PollResponse) (queries slept : Nat) :
    Nat → PollOutcome
  | 0 => .timeout queries slept
  | fuel + 1 =>
    let r := provider queries
    if r.http_status ≠ 200 then .transport_error r.http_status (queries + 1) slept
    else if is_terminal r.status then .terminal r (queries + 1) slept
    else poll_go provider (queries + 1) (slept + 2) fuel

/-- `poll_replicate_job` (api_server.py line 1197): polls up to `max_attempts`
times (default 30). -/
def poll_replicate_job (provider : Nat → PollResponse)
    (max_attempts : Nat := 30) : PollOutcome :=
  poll_go provider 0 0 max_attempts

/-! ## Enhanced 3D stage with procedural fallback (api_server.py lines 1050-1075
and 1241-1268) -/

/-- A Python dict with string keys and string values, as returned by the
enhanced 3D stage functions. -/
abbrev StrDict := List (String × String)

/-- `generate_procedural_model_enhanced` (api_server.py lines 1241-1268).  The
model id is `custom_` followed by `int(time.time())` and the first 8 hex digits
of a fresh `uuid.uuid4()`; `now_epoch` and `uuid_hex8` are those two draws and
`base_url` is the `BASE_URL` environment value.  Returns the literal dict built
at lines 1262-1268; the breed analysis, quality level and options arguments do
not influence the returned value. -/
def generate_procedural_model_enhanced (now_epoch : Nat) (uuid_hex8 : String)
    (base_url : String) : StrDict :=
  let model_id := "custom_" ++ toString now_epoch ++ "_" ++ uuid_hex8
  let model_url := base_url ++ "/temp_outputs/" ++ model_id ++ ".glb"
  [("model_url", model_url),
   ("stl_url", model_url),
   ("preview_url", model_url),
   ("job_id", model_id),
   ("message", "Enhanced procedural model generated based on breed analysis")]

/-- `generate_with_3d_service_enhanced` (api_server.py lines 1050-1075).
`replicate_api_token` is the `REPLICATE_API_TOKEN` environment value;
`pipeline_outcome` is the outcome of the FLUX + TRELLIS branch (lines
1064-1068): `.ok` with the result dict of `generate_custom_3d_model_enhanced`,
or `.error` when that branch raised (transport error from the Replicate API,
polling timeout from `poll_replicate_job`, or a failed generation).  Any such
exception is caught at line 1072 and answered with the procedural fallback;
`now_epoch` and `uuid_hex8` are the time and uuid draws the fallback then
makes. -/
def generate_with_3d_service_enhanced (replicate_api_token : Option String)
    (pipeline_outcome : Except String StrDict)
    (now_epoch : Nat) (uuid_hex8 : String) (base_url : String) : StrDict :=
  if py_truthy replicate_api_token = false then
    generate_procedural_model_enhanced now_epoch uuid_hex8 base_url
  else
    match pipeline_outcome with
    | .ok r => r
    | .error _ => generate_procedural_model_enhanced now_epoch uuid_hex8 base_url

/-! ## Job lifecycle: creation and background generation
(api_server.py lines 524-697) -/

/-- Job status strings stored in `job_storage`. -/
inductive JobStatus where
  | pending
  | processing
  | completed
  | failed
  deriving DecidableEq

/-- The metadata dict written into a job record by the completion update
(api_server.py lines 677-683). -/
structure JobMeta where
  breed_hint : String
  style : String
  size : String
  quality : String
  user_id : String
  deriving DecidableEq

/-- One `job_storage` record.  Timestamps are abstracted to naturals, floats to
rationals.  Fields absent from the stored dict are `none`. -/
structure JobRecord where
  status : JobStatus
  progress : ℚ
  created_at : Nat
  completed_at : Option Nat
  error : Option String
  stl_file_path : Option String
  processing_time : Option ℚ
  quality_score : Option ℚ
  metadata : Option JobMeta
  deriving DecidableEq

/-- The record stored by `generate_planter` when a job is created
(api_server.py lines 542-549): status pending, progress 0, nothing else set.
The creating user id is passed to the background task but is not stored in the
record at creation time. -/
def generate_planter_job (created_at : Nat) : JobRecord :=
  { status := .pending
    progress := 0
    created_at := created_at
    completed_at := none
    error := none
    stl_file_path := none
    processing_time := none
    quality_score := none
    metadata := none }

/-- World state threaded through one run of `process_planter_generation`: the
current job record, the sequence of records that `job_storage[job_id]` has held
(each store write appends a snapshot), and whether the temporary input file and
the output STL file exist on disk. -/
structure GenWorld where
  job : JobRecord
  job_history : List JobRecord
  temp_input_exists : Bool
  output_file_exists : Bool
  deriving DecidableEq

/-- The world at the moment the background task starts: the pending record just
created by `generate_planter`, no temporary files. -/
def initial_world (created_at : Nat) : GenWorld :=
  let j := generate_planter_job created_at
  { job := j
    job_history := [j]
    temp_input_exists := false
    output_file_exists := false }

/-- Apply one write to `job_storage[job_id]`, recording the snapshot. -/
def setJob (f : JobRecord → JobRecord) (w : GenWorld) : GenWorld :=
  let j := f w.job
  { w with job := j, job_history := w.job_history ++ [j] }

/-- Failure environment of one run of `process_planter_generation`: which of
the fallible operations of the function raise in this run, plus the values the
neural pipeline produces when it succeeds.  Every `raises` flag corresponds to
one statement of the source that can raise at runtime. -/
structure RunEnv where
  /-- `await file.read()` or the temp-file write raises (line 583; the
  `NamedTemporaryFile(delete=False)` has already created the file). -/
  read_upload_raises : Bool
  /-- `neural_planter` is not `None` (line 590). -/
  neural_available : Bool
  /-- `hasattr(neural_planter, 'generate_dog_planter')` or
  `hasattr(neural_planter, 'generate_planter')` holds (lines 602, 608): the
  pipeline call branch is taken instead of the in-try demo write. -/
  has_generate_method : Bool
  /-- the pipeline call raises (caught by the inner except at line 628). -/
  neural_call_raises : Bool
  /-- the demo STL write inside the inner try raises (lines 626-627; its
  exception is caught by the inner except, whose own fallback write runs). -/
  demo_write_in_try_raises : Bool
  /-- the fallback STL write inside the inner except raises (lines 640-641;
  this exception escapes to the outer handler at line 691). -/
  fallback_write_raises : Bool
  /-- the demo-mode STL write raises (lines 663-664, taken when
  `neural_planter` is `None`; escapes to the outer handler). -/
  demo_mode_write_raises : Bool
  /-- `os.unlink(temp_input_path)` raises (line 689; still inside the outer
  try, after the completion update). -/
  unlink_input_raises : Bool
  /-- `result.get("quality_score", 0.0)` of a successful pipeline call
  (`none` when the result dict has no such key). -/
  neural_result_score : Option ℚ
  /-- `time.time() - start_time` for the neural branch. -/
  neural_elapsed : ℚ

/-- The generation section of `process_planter_generation` (api_server.py lines
589-667): produces the output STL and yields the output path, the processing
time and the quality score, or raises (carrying the world at the raise
point). -/
def ppg_generate_section (env : RunEnv) (job_id : String) (w : GenWorld) :
    Except GenWorld (GenWorld × String × ℚ × ℚ) :=
  if env.neural_available then
    let output_path := "temp_outputs/" ++ job_id ++ "_planter.stl"
    let inner : Except GenWorld (GenWorld × ℚ) :=
      if env.has_generate_method then
        if env.neural_call_raises then
          if env.fallback_write_raises then .error w
          else .ok ({ w with output_file_exists := true }, 75)
        else
          .ok ({ w with output_file_exists := true },
            env.neural_result_score.getD 0)
      else
        if env.demo_write_in_try_raises then
          if env.fallback_write_raises then .error w
          else .ok ({ w with output_file_exists := true }, 75)
        else .ok ({ w with output_file_exists := true }, 85)
    match inner with
    | .error w2 => .error w2
    | .ok (w2, score) =>
      let w3 := setJob (fun j => { j with progress := 90 }) w2
      .ok (w3, output_path, env.neural_elapsed, score)
  else
    let output_path := "temp_outputs/" ++ job_id ++ "_demo_planter.stl"
    if env.demo_mode_write_raises then .error w
    else .ok ({ w with output_file_exists := true }, output_path, 2, 85)

/-- `process_planter_generation` (api_server.py lines 566-697) as a function of
the failure environment.  `t_done` abstracts the completion timestamp written
into `completed_at`.  The body mirrors the outer try: status := processing and
progress := 10 (two store writes), temp input file creation plus upload read,
progress := 20, the generation section, the single completion update (lines
670-684), and the input-file unlink — any raise lands in the outer except
(lines 691-697), which writes status failed, an error string and
`completed_at`. -/
def process_planter_generation (env : RunEnv) (job_id : String)
    (breed_hint style size quality user_id : String) (t_done : Nat)
    (w0 : GenWorld) : GenWorld :=
  let w1 := setJob (fun j => { j with status := .processing }) w0
  let w2 := setJob (fun j => { j with progress := 10 }) w1
  let w3 := { w2 with temp_input_exists := true }
  let body : Except GenWorld GenWorld :=
    if env.read_upload_raises then .error w3
    else
      let w4 := setJob (fun j => { j with progress := 20 }) w3
      match ppg_generate_section env job_id w4 with
      | .error we => .error we
      | .ok (w5, output_path, ptime, score) =>
        let w6 := setJob
          (fun j => { j with
            status := .completed
            progress := 100
            completed_at := some t_done
            stl_file_path := some output_path
            processing_time := some ptime
            quality_score := some score
            metadata := some ⟨breed_hint, style, size, quality, user_id⟩ }) w5
        if env.unlink_input_raises then .error w6
        else .ok { w6 with temp_input_exists := false }
  match body with
  | .ok w => w
  | .error we =>
    setJob
      (fun j => { j with
        status := .failed
        error := some "exception"
        completed_at := some t_done }) we

/-- One allowed forward move of the job status diagram
pending -> processing -> (completed or failed), staying put included. -/
def status_step_ok (a b : JobStatus) : Bool :=
  match a, b with
  | .pending, .pending => true
  | .pending, .processing => true
  | .processing, .processing => true
  | .processing, .completed => true
  | .processing, .failed => true
  | .completed, .completed => true
  | .failed, .failed => true
  | _, _ => false

/-- Every consecutive pair of stored records moves the status forward. -/
def forward_ok : List JobRecord → Bool
  | [] => true
  | [_] => true
  | a :: b :: rest => status_step_ok a.status b.status && forward_ok (b :: rest)

/-- The progress field never decreases along the stored records. -/
def progress_mono : List JobRecord → Bool
  | [] => true
  | [_] => true
  | a :: b :: rest => decide (a.progress ≤ b.progress) && progress_mono (b :: rest)

/-- A job status is terminal when it is completed or failed. -/
def is_terminal_status : JobStatus → Bool
  | .completed => true
  | .failed => true
  | _ => false

/-- `completed_at` is set in a record exactly when its status is terminal. -/
def completed_at_iff_terminal (j : JobRecord) : Bool :=
  is_terminal_status j.status == j.completed_at.isSome

/-! ## Job deletion (api_server.py lines 766-788) -/

/-- Outcome class of `delete_job`: 404 Job not found, 403 Access denied, or the
success message. -/
inductive DeleteResult where
  | not_found
  | access_denied
  | deleted
  deriving DecidableEq

/-- Full outcome of `delete_job`: result class, the `job_storage` table after
the call, and the artifact path unlinked from disk (if any). -/
structure DeleteOutcome where
  result : DeleteResult
  storage : List (String × JobRecord)
  unlinked : Option String
  deriving DecidableEq

/-- `delete_job` (api_server.py lines 766-788).  `fs p` tells whether file `p`
exists (`os.path.exists`).  Unknown id: 404.  Then the ownership check compares
`job_info.get("metadata", {}).get("user_id")` — `None` for any record whose
metadata was never written — with the requester, raising 403 on mismatch.
Otherwise the STL artifact is unlinked when present on disk, and the record is
removed before the success message is returned. -/
def delete_job (fs : String → Bool) (storage : List (String × JobRecord))
    (job_id requester_user_id : String) : DeleteOutcome :=
  match dict_find storage job_id with
  | none => ⟨.not_found, storage, none⟩
  | some job_info =>
    if (job_info.metadata.map JobMeta.user_id) ≠ some requester_user_id then
      ⟨.access_denied, storage, none⟩
    else
      let unlinked :=
        match job_info.stl_file_path with
        | some p => if fs p then some p else none
        | none => none
      ⟨.deleted, storage.filter (fun kv => kv.1 ≠ job_id), unlinked⟩

/-! ## Options parsing of the enhanced endpoint (api_server.py lines 211-236
and 804-812) -/

/-- `photo_style` enum (api_server.py lines 48-51). -/
inductive PhotoStyle where
  | studio
  | natural
  | professional
  deriving DecidableEq

/-- `planter_size` enum (api_server.py lines 53-57). -/
inductive PlanterSize where
  | small
  | medium
  | large
  | custom
  deriving DecidableEq

/-- `EnhancedGenerationOptions` (api_server.py lines 211-236) with its field
defaults. -/
structure EnhancedGenerationOptions where
  include_detailed : Bool := true
  analyze_colors : Bool := true
  analyze_dimensions : Bool := true
  photo_style : PhotoStyle := .studio
  include_profile : Bool := true
  image_width : Int := 768
  image_height : Int := 768
  quality : String := "high"
  include_color : Bool := true
  texture_size : Int := 1024
  mesh_simplify : ℚ := 95 / 100
  randomize_seed : Bool := true
  optimization_level : String := "standard"
  target_poly_count : Int := 15000
  minimize_supports : Bool := true
  planter_size : PlanterSize := .medium
  include_drainage : Bool := true
  include_reservoir : Bool := false
  custom_text : String := ""
  plant_type : String := "succulents"
  preferred_material : String := ""
  custom_dimensions : String := ""
  infill_percentage : String := "20%"
  print_speed : String := "50mm/s"
  deriving DecidableEq

/-- A decoded JSON value as produced by `json.loads` (the payloads at hand
contain no floats, so numbers are integers here). -/
inductive PyVal where
  | pnull
  | pbool (b : Bool)
  | pint (n : Int)
  | pstr (s : String)
  | plist (xs : List PyVal)
  | pdict (kvs : List (String × PyVal))

/-- Modelled from pydantic v2 lax coercion to `bool`, at the points this
development uses: booleans pass through, 0/1 and the usual truthy and falsy
strings coerce, everything else is a validation failure. -/
def coerce_bool : PyVal → Option Bool
  | .pbool b => some b
  | .pint 0 => some false
  | .pint 1 => some true
  | .pstr s =>
    if s ∈ ["true", "t", "yes", "y", "on", "1"] then some true
    else if s ∈ ["false", "f", "no", "n", "off", "0"] then some false
    else none
  | _ => none

/-- Modelled from pydantic v2 lax coercion to `int`: integers pass through,
integer-formatted strings coerce, everything else (booleans, lists, dicts,
null, non-numeric strings) is a validation failure. -/
def coerce_int : PyVal → Option Int
  | .pint n => some n
  | .pstr s => s.toInt?
  | _ => none

/-- Modelled from pydantic v2 coercion to `str`: only strings are accepted. -/
def coerce_str : PyVal → Option String
  | .pstr s => some s
  | _ => none

/-- Modelled from pydantic v2 coercion to `float`, restricted to the
integer-valued JSON numbers of this model. -/
def coerce_rat : PyVal → Option ℚ
  | .pint n => some (n : ℚ)
  | _ => none

/-- Modelled from pydantic coercion to the `PhotoStyle` str-enum: only the
three member values are accepted. -/
def coerce_photo_style : PyVal → Option PhotoStyle
  | .pstr "studio" => some .studio
  | .pstr "natural" => some .natural
  | .pstr "professional" => some .professional
  | _ => none

/-- Modelled from pydantic coercion to the `PlanterSize` str-enum. -/
def coerce_planter_size : PyVal → Option PlanterSize
  | .pstr "small" => some .small
  | .pstr "medium" => some .medium
  | .pstr "large" => some .large
  | .pstr "custom" => some .custom
  | _ => none

/-- Validate one field of the options payload: an absent key takes the field
default, a present key must coerce to the field type or the whole model fails
validation. -/
def vfield {α : Type} (kvs : List (String × PyVal)) (key : String)
    (coe : PyVal → Option α) (dflt : α) : Option α :=
  match dict_find kvs key with
  | none => some dflt
  | some v => coe v

/-- Every known key present in the payload coerces to its field type.  This is
the condition under which `EnhancedGenerationOptions(**options_dict)` does not
raise a pydantic `ValidationError` (unknown keys are ignored, absent keys take
their defaults). -/
def options_fields_ok (kvs : List (String × PyVal)) : Bool :=
  (vfield kvs "include_detailed" coerce_bool true).isSome &&
  (vfield kvs "analyze_colors" coerce_bool true).isSome &&
  (vfield kvs "analyze_dimensions" coerce_bool true).isSome &&
  (vfield kvs "photo_style" coerce_photo_style .studio).isSome &&
  (vfield kvs "include_profile" coerce_bool true).isSome &&
  (vfield kvs "image_width" coerce_int 768).isSome &&
  (vfield kvs "image_height" coerce_int 768).isSome &&
  (vfield kvs "quality" coerce_str "high").isSome &&
  (vfield kvs "include_color" coerce_bool true).isSome &&
  (vfield kvs "texture_size" coerce_int 1024).isSome &&
  (vfield kvs "mesh_simplify" coerce_rat (95 / 100)).isSome &&
  (vfield kvs "randomize_seed" coerce_bool true).isSome &&
  (vfield kvs "optimization_level" coerce_str "standard").isSome &&
  (vfield kvs "target_poly_count" coerce_int 15000).isSome &&
  (vfield kvs "minimize_supports" coerce_bool true).isSome &&
  (vfield kvs "planter_size" coerce_planter_size .medium).isSome &&
  (vfield kvs "include_drainage" coerce_bool true).isSome &&
  (vfield kvs "include_reservoir" coerce_bool false).isSome &&
  (vfield kvs "custom_text" coerce_str "").isSome &&
  (vfield kvs "plant_type" coerce_str "succulents").isSome &&
  (vfield kvs "preferred_material" coerce_str "").isSome &&
  (vfield kvs "custom_dimensions" coerce_str "").isSome &&
  (vfield kvs "infill_percentage" coerce_str "20%").isSome &&
  (vfield kvs "print_speed" coerce_str "50mm/s").isSome

/-- The options record built from a payload all of whose present known keys
coerce: each field takes its coerced value when its key is present, its default
otherwise. -/
def mk_options (kvs : List (String × PyVal)) : EnhancedGenerationOptions where
  include_detailed := (vfield kvs "include_detailed" coerce_bool true).getD true
  analyze_colors := (vfield kvs "analyze_colors" coerce_bool true).getD true
  analyze_dimensions :=
    (vfield kvs "analyze_dimensions" coerce_bool true).getD true
  photo_style := (vfield kvs "photo_style" coerce_photo_style .studio).getD .studio
  include_profile := (vfield kvs "include_profile" coerce_bool true).getD true
  image_width := (vfield kvs "image_width" coerce_int 768).getD 768
  image_height := (vfield kvs "image_height" coerce_int 768).getD 768
  quality := (vfield kvs "quality" coerce_str "high").getD "high"
  include_color := (vfield kvs "include_color" coerce_bool true).getD true
  texture_size := (vfield kvs "texture_size" coerce_int 1024).getD 1024
  mesh_simplify :=
    (vfield kvs "mesh_simplify" coerce_rat (95 / 100)).getD (95 / 100)
  randomize_seed := (vfield kvs "randomize_seed" coerce_bool true).getD true
  optimization_level :=
    (vfield kvs "optimization_level" coerce_str "standard").getD "standard"
  target_poly_count :=
    (vfield kvs "target_poly_count" coerce_int 15000).getD 15000
  minimize_supports :=
    (vfield kvs "minimize_supports" coerce_bool true).getD true
  planter_size :=
    (vfield kvs "planter_size" coerce_planter_size .medium).getD .medium
  include_drainage := (vfield kvs "include_drainage" coerce_bool true).getD true
  include_reservoir :=
    (vfield kvs "include_reservoir" coerce_bool false).getD false
  custom_text := (vfield kvs "custom_text" coerce_str "").getD ""
  plant_type := (vfield kvs "plant_type" coerce_str "succulents").getD "succulents"
  preferred_material := (vfield kvs "preferred_material" coerce_str "").getD ""
  custom_dimensions := (vfield kvs "custom_dimensions" coerce_str "").getD ""
  infill_percentage :=
    (vfield kvs "infill_percentage" coerce_str "20%").getD "20%"
  print_speed := (vfield kvs "print_speed" coerce_str "50mm/s").getD "50mm/s"

/-- `EnhancedGenerationOptions(**options_dict)` for a JSON object payload:
the validated options when every present known key coerces, `none` (pydantic
`ValidationError`) otherwise. -/
def validate_options (kvs : List (String × PyVal)) :
    Option EnhancedGenerationOptions :=
  if options_fields_ok kvs then some (mk_options kvs) else none

/-- The options resolution of `generate_enhanced_3d_simple` (api_server.py
lines 804-812).  `parsed` is the outcome of `json.loads(options)`: `none` when
it raised `json.JSONDecodeError`.  A decode error, or the `TypeError` raised by
`**options_dict` on a non-dict value, is caught at line 810 and answered with
the all-default options.  A dict value is handed to
`EnhancedGenerationOptions(**options_dict)`; a pydantic `ValidationError` there
is NOT among the caught exception classes, so it escapes to the handler at
line 865, which turns it into an HTTP 500 rejection — modelled as `.error`. -/
def resolve_generation_options (parsed : Option PyVal) :
    Except String EnhancedGenerationOptions :=
  match parsed with
  | none => .ok {}
  | some (.pdict kvs) =>
    match validate_options kvs with
    | some o => .ok o
    | none => .error "ValidationError"
  | some _ => .ok {}

/-! ## Batch breed detection (src/src/api/routes/breed.py lines 208-251) -/

/-- One entry of the `results` list assembled by `batch_detect_breeds`: either
the prediction dict of a successful inference tagged with its `batch_index`,
or the error entry appended when the per-input try fails (with
`predicted_breed` None and confidence 0). -/
inductive BatchItem where
  | prediction (batch_index : Nat) (predicted_breed : String) (confidence : ℚ)
  | failure (batch_index : Nat) (error : String)
  deriving DecidableEq

/-- Response of `batch_detect_breeds`: 503 when the inference engine is not
loaded, 400 when the batch exceeds 10 requests, otherwise the results list and
`total_processed`. -/
inductive BatchResponse where
  | service_unavailable
  | batch_too_large
  | done (results : List BatchItem) (total_processed : Nat)
  deriving DecidableEq

/-- The per-input loop of `batch_detect_breeds` (breed.py lines 223-245).
`run i r` is the outcome of loading image `r` and running inference on it (the
breed and confidence on success, the exception text on failure); `i` is the
running `batch_index`. -/
def batch_go {α : Type} (run : Nat → α → Except String (String × ℚ)) :
    Nat → List α → List BatchItem
  | _, [] => []
  | i, r :: rest =>
    (match run i r with
      | .ok p => .prediction i p.1 p.2
      | .error e => .failure i e) :: batch_go run (i + 1) rest

/-- `batch_detect_breeds` (breed.py lines 208-251): 503 if the engine is not
loaded, 400 if more than 10 requests, else one result entry per input and
`total_processed = len(results)`. -/
def batch_detect_breeds {α : Type} (engine_loaded : Bool) (requests : List α)
    (run : Nat → α → Except String (String × ℚ)) : BatchResponse :=
  if engine_loaded = false then .service_unavailable
  else if requests.length > 10 then .batch_too_large
  else
    let results := batch_go run 0 requests
    .done results results.length

/-! ## Concrete runs used by the claim theorems -/

/-- A run in which every operation succeeds except the final
`os.unlink(temp_input_path)` (api_server.py line 689), in demo mode. -/
def env_unlink_fails : RunEnv :=
  { read_upload_raises := false
    neural_available := false
    has_generate_method := false
    neural_call_raises := false
    demo_write_in_try_raises := false
    fallback_write_raises := false
    demo_mode_write_raises := false
    unlink_input_raises := true
    neural_result_score := none
    neural_elapsed := 0 }

/-- A demo-mode run in which writing the output STL (api_server.py lines
663-664) raises, sending control to the outer except handler. -/
def env_output_write_fails : RunEnv :=
  { read_upload_raises := false
    neural_available := false
    has_generate_method := false
    neural_call_raises := false
    demo_write_in_try_raises := false
    fallback_write_raises := false
    demo_mode_write_raises := true
    unlink_input_raises := false
    neural_result_score := none
    neural_elapsed := 0 }

/-- A provider whose first poll reports a running status and whose second
reports success. -/
def provider_succeeds_second (i : Nat) : PollResponse :=
  if i = 0 then ⟨200, .other "starting", none⟩
  else ⟨200, .succeeded, some "https://example.com/model.glb"⟩

/-- A provider that always reports a running status. -/
def provider_never_terminal (_ : Nat) : PollResponse :=
  ⟨200, .other "processing", none⟩

/-- A provider whose very first status query fails at the transport level. -/
def provider_transport_500 (_ : Nat) : PollResponse :=
  ⟨500, .other "n/a", none⟩

/-- A batch inference oracle that classifies every input as a Labrador with
confidence 0.9. -/
def batch_run_ok {α : Type} (_ : Nat) (_ : α) : Except String (String × ℚ) :=
  .ok ("Labrador", 9 / 10)

/-- A batch inference oracle that fails on the second input (index 1) and
classifies every other input as a Labrador. -/
def batch_run_mixed {α : Type} (i : Nat) (_ : α) : Except String (String × ℚ) :=
  if i = 1 then .error "Invalid base64 image" else .ok ("Labrador", 9 / 10)

/-- The conjunction of the three lifecycle invariants over the sequence of
stored job records: forward-only status moves, non-decreasing progress, and
completed_at set exactly at terminal statuses. -/
def lifecycle_ok (hist : List JobRecord) : Bool :=
  forward_ok hist && progress_mono hist && hist.all completed_at_iff_terminal

/-- A run in which every operation succeeds: the neural pipeline is loaded,
exposes its generation method, and returns a result scoring 92.5. -/
def env_all_ok : RunEnv :=
  { read_upload_raises := false
    neural_available := true
    has_generate_method := true
    neural_call_raises := false
    demo_write_in_try_raises := false
    fallback_write_raises := false
    demo_mode_write_raises := false
    unlink_input_raises := false
    neural_result_score := some (185 / 2)
    neural_elapsed := 12 }

/-- A completed job record owned (in its completion metadata) by demo_user,
with an on-disk artifact. -/
def completed_job_record : JobRecord :=
  { status := .completed
    progress := 100
    created_at := 0
    completed_at := some 7
    error := none
    stl_file_path := some "temp_outputs/j2_planter.stl"
    processing_time := some 5
    quality_score := some 85
    metadata := some ⟨"Labrador", "realistic", "medium", "high", "demo_user"⟩ }

/-! ## Helper lemmas -/

/-- If the first `m` status queries return transport 200 with a non-terminal
status, and query `m` (0-indexed) returns transport 200 with a terminal status,
the poll loop returns that response after exactly `m + 1` queries, having slept
2 seconds between consecutive queries. -/
theorem poll_go_success (provider : Nat → PollResponse) :
    ∀ (m fuel queries slept : Nat), m < fuel →
    (∀ i, i < m → (provider (queries + i)).http_status = 200 ∧
      is_terminal (provider (queries + i)).status = false) →
    (provider (queries + m)).http_status = 200 →
    is_terminal (provider (queries + m)).status = true →
    poll_go provider queries slept fuel =
      .terminal (provider (queries + m)) (queries + m + 1) (slept + 2 * m) := by
  intro m
  induction m with
  | zero =>
    intro fuel queries slept hlt _ h200 hterm
    match fuel, hlt with
    | fuel + 1, _ =>
      simp only [Nat.add_zero] at h200 hterm ⊢
      simp [poll_go, h200, hterm]
  | succ m ih =>
    intro fuel queries slept hlt hpre h200 hterm
    match fuel, hlt with
    | fuel + 1, hlt =>
      have h0 := hpre 0 (Nat.succ_pos m)
      simp only [Nat.add_zero] at h0
      have e : queries + 1 + m = queries + (m + 1) := by omega
      have hrec := ih fuel (queries + 1) (slept + 2) (by omega)
        (fun i hi => by
          have h := hpre (i + 1) (by omega)
          have e2 : queries + (i + 1) = queries + 1 + i := by omega
          rw [e2] at h
          exact h)
        (by rw [e]; exact h200)
        (by rw [e]; exact hterm)
      rw [e] at hrec
      have e3 : slept + 2 + 2 * m = slept + 2 * (m + 1) := by omega
      rw [e3] at hrec
      simp [poll_go, h0.1, h0.2, hrec]

/-- If every one of the `fuel` remaining queries returns transport 200 with a
non-terminal status, the poll loop times out after exactly `fuel` further
queries, sleeping 2 seconds after each of them. -/
theorem poll_go_timeout (provider : Nat → PollResponse) :
    ∀ (fuel queries slept : Nat),
    (∀ i, i < fuel → (provider (queries + i)).http_status = 200 ∧
      is_terminal (provider (queries + i)).status = false) →
    poll_go provider queries slept fuel =
      .timeout (queries + fuel) (slept + 2 * fuel) := by
  intro fuel
  induction fuel with
  | zero => intro queries slept _; simp [poll_go]
  | succ fuel ih =>
    intro queries slept hpre
    have h0 := hpre 0 (Nat.succ_pos fuel)
    simp only [Nat.add_zero] at h0
    have hrec := ih (queries + 1) (slept + 2)
      (fun i hi => by
        have h := hpre (i + 1) (by omega)
        have e2 : queries + (i + 1) = queries + 1 + i := by omega
        rw [e2] at h
        exact h)
    have e : queries + 1 + fuel = queries + (fuel + 1) := by omega
    have e3 : slept + 2 + 2 * fuel = slept + 2 * (fuel + 1) := by omega
    rw [e, e3] at hrec
    simp [poll_go, h0.1, h0.2, hrec]

/-- If the first `m` status queries return transport 200 with a non-terminal
status and query `m` (0-indexed) returns a non-200 transport status, the poll
loop raises the transport error right there, after exactly `m + 1` queries. -/
theorem poll_go_transport (provider : Nat → PollResponse) :
    ∀ (m fuel queries slept : Nat), m < fuel →
    (∀ i, i < m → (provider (queries + i)).http_status = 200 ∧
      is_terminal (provider (queries + i)).status = false) →
    (provider (queries + m)).http_status ≠ 200 →
    poll_go provider queries slept fuel =
      .transport_error (provider (queries + m)).http_status (queries + m + 1)
        (slept + 2 * m) := by
  intro m
  induction m with
  | zero =>
    intro fuel queries slept hlt _ hbad
    match fuel, hlt with
    | fuel + 1, _ =>
      simp only [Nat.add_zero] at hbad ⊢
      simp [poll_go, hbad]
  | succ m ih =>
    intro fuel queries slept hlt hpre hbad
    match fuel, hlt with
    | fuel + 1, hlt =>
      have h0 := hpre 0 (Nat.succ_pos m)
      simp only [Nat.add_zero] at h0
      have e : queries + 1 + m = queries + (m + 1) := by omega
      have hrec := ih fuel (queries + 1) (slept + 2) (by omega)
        (fun i hi => by
          have h := hpre (i + 1) (by omega)
          have e2 : queries + (i + 1) = queries + 1 + i := by omega
          rw [e2] at h
          exact h)
        (by rw [e]; exact hbad)
      rw [e] at hrec
      have e3 : slept + 2 + 2 * m = slept + 2 * (m + 1) := by omega
      rw [e3] at hrec
      simp [poll_go, h0.1, h0.2, hrec]

/-- The batch loop yields exactly one entry per input. -/
theorem batch_go_length {α : Type} (run : Nat → α → Except String (String × ℚ)) :
    ∀ (l : List α) (i : Nat), (batch_go run i l).length = l.length := by
  intro l
  induction l with
  | nil => intro i; rfl
  | cons a rest ih => intro i; simp [batch_go, ih]

/-- The `j`-th entry of the batch loop output is the outcome of running
inference on the `j`-th input, tagged with its batch index. -/
theorem batch_go_get {α : Type} (run : Nat → α → Except String (String × ℚ)) :
    ∀ (l : List α) (i j : Nat) (r : α), l[j]? = some r →
    (batch_go run i l)[j]? = some
      (match run (i + j) r with
        | .ok p => .prediction (i + j) p.1 p.2
        | .error e => .failure (i + j) e) := by
  intro l
  induction l with
  | nil => intro i j r h; simp at h
  | cons a rest ih =>
    intro i j r h
    match j with
    | 0 =>
      simp only [List.getElem?_cons_zero, Option.some.injEq] at h
      subst h
      simp [batch_go]
    | j + 1 =>
      simp only [List.getElem?_cons_succ] at h
      have hrec := ih (i + 1) j r h
      have e : i + 1 + j = i + (j + 1) := by omega
      rw [e] at hrec
      simpa [batch_go] using hrec

/-- Looking up a key in an association list from which every entry with that
key has been filtered out finds nothing. -/
theorem dict_find_filter_ne {α : Type} :
    ∀ (l : List (String × α)) (k : String),
    dict_find (l.filter (fun kv => kv.1 ≠ k)) k = none := by
  intro l k
  induction l with
  | nil => rfl
  | cons kv rest ih =>
    simp only [ne_eq, decide_not] at ih ⊢
    by_cases h : kv.1 = k
    · simp [List.filter_cons, h, ih]
    · simp [List.filter_cons, h, dict_find, ih]

/-- `py_int` of a rational at least 1 is positive. -/
theorem py_int_pos {q : ℚ} (h : 1 ≤ q) : 0 < py_int q := by
  unfold py_int
  rw [if_pos (le_trans zero_le_one h)]
  have h1 : (1 : Int) ≤ ⌊q⌋ := Int.le_floor.mpr (by exact_mod_cast h)
  omega

/-- `py_int` of a nonnegative rational is nonnegative. -/
theorem py_int_nonneg {q : ℚ} (h : 0 ≤ q) : 0 ≤ py_int q := by
  unfold py_int
  rw [if_pos h]
  exact Int.le_floor.mpr (by exact_mod_cast h)

/-- A Python `or` falls through a falsy left operand. -/
theorem py_str_or_falsy {v : Option String} (h : py_truthy v = false)
    (d : String) : py_str_or v d = d := by
  match v with
  | none => rfl
  | some s =>
    by_cases hs : s = ""
    · simp [py_str_or, hs]
    · simp [py_truthy, hs] at h

/-- A Python `or` keeps a truthy left operand. -/
theorem py_str_or_truthy {s : String} (h : s ≠ "") (d : String) :
    py_str_or (some s) d = s := by
  simp [py_str_or, h]

/-- The enhanced rate limiter is exactly the spec fixed-window machine at
threshold 50 and window 3600 seconds, with the rejected retry-after truncated
by `int(...)`. -/
theorem enhanced_step_eq_spec (entry : Option RateRecord) (now : ℚ) :
    check_rate_limit_enhanced_step entry now =
      (truncate_decision (spec_fixed_window_step 50 3600 entry now).1,
       (spec_fixed_window_step 50 3600 entry now).2) := by
  match entry with
  | none => rfl
  | some r =>
    simp only [check_rate_limit_enhanced_step, spec_fixed_window_step]
    by_cases h1 : now > r.reset_time
    · simp [h1, truncate_decision, hour_ms]
    · by_cases h2 : r.count < 50
      · have h3 : ¬ r.count ≥ MAX_REQUESTS_PER_HOUR := by
          simp only [MAX_REQUESTS_PER_HOUR]
          omega
        simp [h1, h2, h3, truncate_decision]
      · have h3 : r.count ≥ MAX_REQUESTS_PER_HOUR := by
          simp only [MAX_REQUESTS_PER_HOUR]
          omega
        simp [h1, h2, h3, truncate_decision]

/-! ## Claim theorems -/

/-- C1, counterexample.  With the Replicate token configured and the 3D branch
failing (polling timeout), the stage does return a procedural fallback result;
but, contrary to the claim, that result carries no `fallback_path` key at all,
and two retries of the same job (different wall-clock second, different random
uuid draw) yield different procedural model references — the reference is not
derived from the job id and is not stable across retries. -/
theorem C1_counterexample :
    dict_find (generate_with_3d_service_enhanced (some "r8_testtoken")
      (.error "Job polling timeout") 1700000000 "aaaabbbb"
      "http://localhost:8000") "fallback_path" = none ∧
    dict_find (generate_with_3d_service_enhanced (some "r8_testtoken")
      (.error "Job polling timeout") 1700000000 "aaaabbbb"
      "http://localhost:8000") "job_id" ≠
    dict_find (generate_with_3d_service_enhanced (some "r8_testtoken")
      (.error "Job polling timeout") 1700000777 "ccccdddd"
      "http://localhost:8000") "job_id" := by
  exact ⟨rfl, by decide⟩

/-- C1, amended claim: if the Convert3D branch fails (for any exception,
including the transport-error and polling-timeout raises), the stage still
returns a successful result built from the procedural fallback; but the result
carries no fallback_path marker, and the procedural model reference is
`custom_` + the current epoch second + 8 random uuid hex digits, derived from
the wall clock and a fresh uuid rather than from the job id, hence not stable
across retries. -/
theorem C1_fallback_amended (tok msg uuid_hex8 base_url : String)
    (now_epoch : Nat) (htok : tok ≠ "") :
    generate_with_3d_service_enhanced (some tok) (.error msg) now_epoch
        uuid_hex8 base_url
      = generate_procedural_model_enhanced now_epoch uuid_hex8 base_url ∧
    dict_find (generate_procedural_model_enhanced now_epoch uuid_hex8 base_url)
      "fallback_path" = none ∧
    dict_find (generate_procedural_model_enhanced now_epoch uuid_hex8 base_url)
      "job_id" = some ("custom_" ++ toString now_epoch ++ "_" ++ uuid_hex8) := by
  refine ⟨?_, rfl, rfl⟩
  simp [generate_with_3d_service_enhanced, py_truthy, htok]

/-- C1, witness for the amended claim at a concrete token, failure message,
time and uuid draw. -/
theorem C1_fallback_amended_witness :
    generate_with_3d_service_enhanced (some "r8_tok") (.error "boom") 1700000000
        "aaaabbbb" "http://localhost:8000"
      = generate_procedural_model_enhanced 1700000000 "aaaabbbb"
          "http://localhost:8000" ∧
    dict_find (generate_procedural_model_enhanced 1700000000 "aaaabbbb"
      "http://localhost:8000") "fallback_path" = none ∧
    dict_find (generate_procedural_model_enhanced 1700000000 "aaaabbbb"
      "http://localhost:8000") "job_id"
      = some ("custom_" ++ toString 1700000000 ++ "_" ++ "aaaabbbb") :=
  C1_fallback_amended "r8_tok" "boom" "aaaabbbb" "http://localhost:8000"
    1700000000 (by decide)

/-- C2, counterexample.  A client at its 51st request (count = 50 = threshold)
arriving half a second before the window reset is rejected — but the rejection
message carries `int(reset_at - now) = 0` seconds, which is neither equal to
`reset_at - now = 1/2` nor positive, refuting the claimed
`retry_after = reset_at - now` / positive retry-after for a request strictly
inside the window. -/
theorem C2_counterexample :
    check_rate_limit_enhanced_step (some ⟨50, 3600⟩) (7199 / 2) =
      (.rejected 0, some ⟨50, 3600⟩) ∧
    (3600 : ℚ) - 7199 / 2 = 1 / 2 ∧
    ((0 : ℚ) ≠ 1 / 2) ∧ ¬ ((0 : Int) < 0) := by
  refine ⟨?_, by norm_num, by norm_num, by omega⟩
  have hfloor : py_int ((3600 : ℚ) - 7199 / 2) = 0 := by
    unfold py_int
    rw [if_pos (by norm_num)]
    have : ((3600 : ℚ) - 7199 / 2) = 1 / 2 := by norm_num
    rw [this]
    norm_num [Int.floor_eq_iff]
  simp only [check_rate_limit_enhanced_step, MAX_REQUESTS_PER_HOUR]
  rw [if_neg (by norm_num), if_pos (by norm_num), hfloor]

/-- C2, amended claim: the admission check is exactly the fixed-window state
machine of the spec at threshold 50 and window 3600 — no record or an expired
window resets to count 1 and reset_at = now + 3600 and admits; below the
threshold it increments and admits; at the threshold it rejects without
incrementing — except that the rejection carries `int(reset_at - now)`, the
remaining time truncated to whole seconds: nonnegative always, positive
whenever at least one full second remains before the reset, but 0 when the
(N+1)-th request lands in the final second of the window. -/
theorem C2_amended :
    (∀ (entry : Option RateRecord) (now : ℚ),
      check_rate_limit_enhanced_step entry now =
        (truncate_decision (spec_fixed_window_step 50 3600 entry now).1,
         (spec_fixed_window_step 50 3600 entry now).2)) ∧
    (∀ (r : RateRecord) (now : ℚ), now ≤ r.reset_time → 50 ≤ r.count →
      check_rate_limit_enhanced_step (some r) now =
        (.rejected (py_int (r.reset_time - now)), some r) ∧
      0 ≤ py_int (r.reset_time - now) ∧
      (1 ≤ r.reset_time - now → 0 < py_int (r.reset_time - now))) ∧
    (∀ (r : RateRecord) (now : ℚ), r.reset_time < now →
      check_rate_limit_enhanced_step (some r) now =
        (.allowed ⟨1, now + 3600⟩, some ⟨1, now + 3600⟩)) := by
  refine ⟨fun entry now => enhanced_step_eq_spec entry now, ?_, ?_⟩
  · intro r now hle hcount
    refine ⟨?_, py_int_nonneg (by linarith), fun h1 => py_int_pos h1⟩
    simp only [check_rate_limit_enhanced_step, MAX_REQUESTS_PER_HOUR]
    rw [if_neg (by exact not_lt.mpr hle), if_pos (by omega)]
  · intro r now hgt
    simp only [check_rate_limit_enhanced_step, hour_ms]
    rw [if_pos hgt]

/-- C2, witness for the amended claim: a record at the threshold rejected 3500
seconds before its reset, with a positive truncated retry-after. -/
theorem C2_amended_witness :
    check_rate_limit_enhanced_step (some ⟨50, 3600⟩) 100 =
      (.rejected (py_int ((3600 : ℚ) - 100)), some ⟨50, 3600⟩) ∧
    0 < py_int ((3600 : ℚ) - 100) := by
  have h := C2_amended.2.1 ⟨50, 3600⟩ 100 (by norm_num) (by norm_num)
  exact ⟨h.1, h.2.2 (by norm_num)⟩

/-- C3: the poller, run with any attempt budget, returns the provider response
after exactly k status queries when the provider first reports a terminal
status (succeeded or failed) on attempt k ≤ max_attempts, having slept the
fixed 2 seconds between consecutive attempts; raises the polling timeout after
exactly max_attempts queries when no attempt is terminal; raises the transport
error immediately, with no further attempts, on the first non-200 transport
response; and its max_attempts default is 30. -/
theorem C3_poller :
    (∀ (provider : Nat → PollResponse) (max_attempts k : Nat),
      1 ≤ k → k ≤ max_attempts →
      (∀ i, i < k - 1 → (provider i).http_status = 200 ∧
        is_terminal (provider i).status = false) →
      (provider (k - 1)).http_status = 200 →
      is_terminal (provider (k - 1)).status = true →
      poll_replicate_job provider max_attempts =
        .terminal (provider (k - 1)) k (2 * (k - 1))) ∧
    (∀ (provider : Nat → PollResponse) (max_attempts : Nat),
      (∀ i, i < max_attempts → (provider i).http_status = 200 ∧
        is_terminal (provider i).status = false) →
      poll_replicate_job provider max_attempts =
        .timeout max_attempts (2 * max_attempts)) ∧
    (∀ (provider : Nat → PollResponse) (max_attempts j : Nat),
      1 ≤ j → j ≤ max_attempts →
      (∀ i, i < j - 1 → (provider i).http_status = 200 ∧
        is_terminal (provider i).status = false) →
      (provider (j - 1)).http_status ≠ 200 →
      poll_replicate_job provider max_attempts =
        .transport_error (provider (j - 1)).http_status j (2 * (j - 1))) ∧
    (∀ provider : Nat → PollResponse,
      poll_replicate_job provider = poll_replicate_job provider 30) := by
  refine ⟨?_, ?_, ?_, fun provider => rfl⟩
  · intro provider maxA k h1 h2 hpre h200 hterm
    have h := poll_go_success provider (k - 1) maxA 0 0 (by omega)
      (fun i hi => by simpa using hpre i hi)
      (by simpa using h200) (by simpa using hterm)
    simp only [Nat.zero_add] at h
    have e : k - 1 + 1 = k := by omega
    rw [e] at h
    simpa [poll_replicate_job] using h
  · intro provider maxA hpre
    have h := poll_go_timeout provider maxA 0 0
      (fun i hi => by simpa using hpre i hi)
    simp only [Nat.zero_add] at h
    simpa [poll_replicate_job] using h
  · intro provider maxA j h1 h2 hpre hbad
    have h := poll_go_transport provider (j - 1) maxA 0 0 (by omega)
      (fun i hi => by simpa using hpre i hi)
      (by simpa using hbad)
    simp only [Nat.zero_add] at h
    have e : j - 1 + 1 = j := by omega
    rw [e] at h
    simpa [poll_replicate_job] using h

/-- C3, witness: a provider succeeding on the second attempt yields its
response after 2 queries and one 2-second sleep; a never-terminal provider
times out after 30 queries and 60 slept seconds; a provider whose first query
fails at transport level raises after a single query. -/
theorem C3_poller_witness :
    poll_replicate_job provider_succeeds_second 30 =
      .terminal ⟨200, .succeeded, some "https://example.com/model.glb"⟩ 2 2 ∧
    poll_replicate_job provider_never_terminal 30 = .timeout 30 60 ∧
    poll_replicate_job provider_transport_500 30 = .transport_error 500 1 0 := by
  refine ⟨?_, ?_, ?_⟩
  · have h := C3_poller.1 provider_succeeds_second 30 2 (by norm_num)
      (by norm_num)
      (fun i hi => by
        have hz : i = 0 := by omega
        subst hz
        exact ⟨rfl, rfl⟩)
      rfl rfl
    exact h
  · exact C3_poller.2.1 provider_never_terminal 30 (fun i _ => ⟨rfl, rfl⟩)
  · have h := C3_poller.2.2.1 provider_transport_500 30 1 (by norm_num)
      (by norm_num)
      (fun i hi => absurd hi (by omega))
      (by decide)
    exact h

/-- C4, counterexample.  In a run where everything succeeds but the final
`os.unlink(temp_input_path)` raises — the unlink sits inside the outer try,
after the completion update — the outer except handler overwrites the already
completed job with status failed: the stored status sequence is pending,
processing, processing, processing, completed, failed, which moves backward
out of the terminal completed state, refuting the claim that status only moves
forward in every run. -/
theorem C4_counterexample :
    (process_planter_generation env_unlink_fails "job-1" "Labrador" "realistic"
        "medium" "high" "demo_user" 7 (initial_world 0)).job_history.map
      JobRecord.status =
      [.pending, .processing, .processing, .processing, .completed, .failed] ∧
    forward_ok (process_planter_generation env_unlink_fails "job-1" "Labrador"
      "realistic" "medium" "high" "demo_user" 7
      (initial_world 0)).job_history = false := by
  exact ⟨rfl, rfl⟩

/-- C4, amended claim: in every run of the background generation task in which
the post-completion input-file unlink does not raise, the stored job records
move the status only forward along pending -> processing -> (completed or
failed), the progress field never decreases, and completed_at is set exactly
in the records whose status is terminal.  (If that unlink raises, the outer
handler rewrites the completed job to failed.) -/
theorem C4_amended (env : RunEnv) (job_id bh st sz q uid : String)
    (created t_done : Nat) (hnl : env.unlink_input_raises = false) :
    lifecycle_ok (process_planter_generation env job_id bh st sz q uid t_done
      (initial_world created)).job_history = true := by
  obtain ⟨a, b, c, d, e, f, g, h, score, el⟩ := env
  replace hnl : h = false := hnl
  subst hnl
  cases a <;> cases b <;> cases c <;> cases d <;> cases e <;> cases f <;>
    cases g <;> rfl

/-- C4, witness for the amended claim: a fully successful neural-pipeline
run. -/
theorem C4_amended_witness :
    lifecycle_ok (process_planter_generation env_all_ok "job-1" "Labrador"
      "realistic" "medium" "high" "demo_user" 7
      (initial_world 0)).job_history = true :=
  C4_amended env_all_ok "job-1" "Labrador" "realistic" "medium" "high"
    "demo_user" 0 7 rfl

/-- C5: the code contradicts the guaranteed-cleanup obligation.  In a run where
writing the output STL raises (after the temporary input file was created),
the outer except handler marks the job failed but never unlinks the temporary
input file: the job is terminal and the input artifact is still on disk.  The
only `os.unlink(temp_input_path)` sits on the success path (line 689); the
handler at lines 691-697 performs no cleanup. -/
theorem C5_cleanup_missing_on_failure :
    (process_planter_generation env_output_write_fails "job-1" "Labrador"
      "realistic" "medium" "high" "demo_user" 7
      (initial_world 0)).job.status = .failed ∧
    (process_planter_generation env_output_write_fails "job-1" "Labrador"
      "realistic" "medium" "high" "demo_user" 7
      (initial_world 0)).temp_input_exists = true := by
  exact ⟨rfl, rfl⟩

set_option maxRecDepth 40000 in
attribute [local semireducible] Rat.sub Rat.add Rat.mul in
/-- C6, counterexample.  The user-keyed `check_rate_limit` is a sliding-window
log, not the fixed-window machine: run both, at the identical threshold 100
and window 3600, on one request at t=0, ninety-nine at t=2000, one at t=3601
and one at t=3602.  The fixed-window machine resets at t=3601 (3601 > 3600)
and so admits the final request with count 2; the sliding log still holds 100
timestamps younger than one hour at t=3602 and rejects it.  The two instances
therefore do not satisfy the same state-machine contract. -/
theorem C6_counterexample :
    (run_check_rate_limit c6_trace).1.getLast? = some false ∧
    (run_spec_fixed_window 100 3600 c6_trace).1.getLast? = some true := by
  exact ⟨by decide, by decide⟩

set_option maxRecDepth 40000 in
attribute [local semireducible] Rat.sub Rat.add Rat.mul in
/-- C6, amended claim: only the client-address limiter implements the spec
fixed-window contract (threshold 50, window 3600, retry-after truncated to
whole seconds).  The user-id limiter instead keeps a log of request
timestamps: it admits exactly when fewer than 100 logged requests are younger
than one hour, records the pruned log plus the new timestamp on admission, and
on rejection records only the pruned log (so, like the fixed-window machine,
a rejected request is not counted) — and it is not equivalent to the
fixed-window machine at its own threshold and window, as the two produce
different admission sequences on a concrete trace. -/
theorem C6_amended :
    (∀ (entry : Option RateRecord) (now : ℚ),
      check_rate_limit_enhanced_step entry now =
        (truncate_decision (spec_fixed_window_step 50 3600 entry now).1,
         (spec_fixed_window_step 50 3600 entry now).2)) ∧
    (∀ (times : List ℚ) (now : ℚ),
      ((check_rate_limit_step times now).1 = true ↔
        (times.filter (fun t => now - t < 3600)).length < 100) ∧
      ((check_rate_limit_step times now).1 = false →
        (check_rate_limit_step times now).2 =
          times.filter (fun t => now - t < 3600)) ∧
      ((check_rate_limit_step times now).1 = true →
        (check_rate_limit_step times now).2 =
          times.filter (fun t => now - t < 3600) ++ [now])) ∧
    (run_check_rate_limit c6_trace).1 ≠
      (run_spec_fixed_window 100 3600 c6_trace).1 := by
  refine ⟨fun entry now => enhanced_step_eq_spec entry now, ?_, by decide⟩
  intro times now
  simp only [check_rate_limit_step]
  by_cases h : (times.filter (fun t => now - t < 3600)).length ≥ 100
  · rw [if_pos h]
    refine ⟨by simpa using h, fun _ => rfl, fun hc => by simp at hc⟩
  · rw [if_neg h]
    refine ⟨by simpa using h, fun hc => by simp at hc, fun _ => rfl⟩

/-- C6, witness for the amended claim: the first request of a fresh client key
through both characterizations. -/
theorem C6_amended_witness :
    check_rate_limit_enhanced_step none 0 =
      (truncate_decision (spec_fixed_window_step 50 3600 none 0).1,
       (spec_fixed_window_step 50 3600 none 0).2) ∧
    (check_rate_limit_step [] 0).1 = true ∧
    (check_rate_limit_step [] 0).2 =
      List.filter (fun t => (0 : ℚ) - t < 3600) [] ++ [0] := by
  refine ⟨C6_amended.1 none 0, ?_, ?_⟩
  · exact (C6_amended.2.1 [] 0).1.mpr (by decide)
  · exact (C6_amended.2.1 [] 0).2.2 ((C6_amended.2.1 [] 0).1.mpr (by decide))

/-- C7, counterexample.  A request whose forwarded-address header is present
(holding 1.2.3.4) but whose connection carries no client address is keyed to
the constant anonymous bucket instead of the forwarded address the claimed
precedence requires: Python parses the extraction expression as
`(xff or xrip or str(host)) if client else anonymous`, so a missing raw
address short-circuits past both headers. -/
theorem C7_counterexample :
    client_id_of (some "1.2.3.4") none none = "anonymous" ∧
    ("anonymous" : String) ≠ "1.2.3.4" := by
  exact ⟨rfl, by decide⟩

/-- C7, amended claim: when the connection has no client address the key is the
constant anonymous bucket regardless of any header; when a client address is
present the precedence is forwarded-address header (if truthy), then real-IP
header (if truthy), then the raw connection address. -/
theorem C7_amended :
    (∀ (xff xrip : Option String), client_id_of xff xrip none = "anonymous") ∧
    (∀ (a : String) (xrip : Option String) (host : String), a ≠ "" →
      client_id_of (some a) xrip (some host) = a) ∧
    (∀ (xff : Option String) (b host : String),
      py_truthy xff = false → b ≠ "" →
      client_id_of xff (some b) (some host) = b) ∧
    (∀ (xff xrip : Option String) (host : String),
      py_truthy xff = false → py_truthy xrip = false →
      client_id_of xff xrip (some host) = host) := by
  refine ⟨fun _ _ => rfl, ?_, ?_, ?_⟩
  · intro a xrip host ha
    simp [client_id_of, py_str_or_truthy ha]
  · intro xff b host hx hb
    simp [client_id_of, py_str_or_falsy hx, py_str_or_truthy hb]
  · intro xff xrip host hx hr
    simp [client_id_of, py_str_or_falsy hx, py_str_or_falsy hr]

/-- C7, witness for the amended claim across the four branches. -/
theorem C7_amended_witness :
    client_id_of (some "1.2.3.4") (some "5.6.7.8") none = "anonymous" ∧
    client_id_of (some "1.2.3.4") (some "5.6.7.8") (some "9.9.9.9") =
      "1.2.3.4" ∧
    client_id_of none (some "5.6.7.8") (some "9.9.9.9") = "5.6.7.8" ∧
    client_id_of (some "") none (some "9.9.9.9") = "9.9.9.9" := by
  refine ⟨C7_amended.1 (some "1.2.3.4") (some "5.6.7.8"),
    C7_amended.2.1 "1.2.3.4" (some "5.6.7.8") "9.9.9.9" (by decide),
    C7_amended.2.2.1 none "5.6.7.8" "9.9.9.9" rfl (by decide),
    C7_amended.2.2.2 (some "") none "9.9.9.9" rfl rfl⟩

/-- C8, counterexample.  `generate_planter` stores a pending record with no
metadata; the ownership check of `delete_job` compares
`metadata.get("user_id")` (None) with the requester, so the very user who just
created the job — its owner — is denied deletion of the still-pending job,
refuting the claim that an owner request succeeds for every existing job. -/
theorem C8_counterexample :
    (delete_job (fun _ => true) [("j1", generate_planter_job 0)] "j1"
      "demo_user").result = DeleteResult.access_denied ∧
    DeleteResult.access_denied ≠ DeleteResult.deleted := by
  exact ⟨rfl, by decide⟩

/-- C8, amended claim: for every existing job, deletion is denied (leaving the
table unchanged and unlinking nothing) whenever the user id recorded in the
completion metadata — absent for any job that has not completed — differs from
the requester; when it matches, the call reports success, the record is gone
from the table, and the on-disk artifact, when its path is recorded and the
file exists, is unlinked. -/
theorem C8_amended (fs : String → Bool) (storage : List (String × JobRecord))
    (job_id requester : String) (rec : JobRecord)
    (hfind : dict_find storage job_id = some rec) :
    (rec.metadata.map JobMeta.user_id ≠ some requester →
      delete_job fs storage job_id requester =
        ⟨.access_denied, storage, none⟩) ∧
    (rec.metadata.map JobMeta.user_id = some requester →
      (delete_job fs storage job_id requester).result = .deleted ∧
      dict_find (delete_job fs storage job_id requester).storage job_id =
        none ∧
      (delete_job fs storage job_id requester).unlinked =
        (match rec.stl_file_path with
          | some p => if fs p then some p else none
          | none => none)) := by
  constructor
  · intro hne
    simp [delete_job, hfind, hne]
  · intro heq
    have hnn : ¬ (rec.metadata.map JobMeta.user_id ≠ some requester) := by
      simp [heq]
    have hdel : delete_job fs storage job_id requester =
        ⟨.deleted, storage.filter (fun kv => kv.1 ≠ job_id),
          (match rec.stl_file_path with
            | some p => if fs p then some p else none
            | none => none)⟩ := by
      simp [delete_job, hfind, hnn]
    rw [hdel]
    exact ⟨rfl, dict_find_filter_ne storage job_id, rfl⟩

/-- C8, witness for the amended claim: the metadata-recorded owner deletes a
completed job, the record disappears and the artifact file is unlinked. -/
theorem C8_amended_witness :
    (delete_job (fun _ => true) [("j2", completed_job_record)] "j2"
      "demo_user").result = DeleteResult.deleted ∧
    dict_find (delete_job (fun _ => true) [("j2", completed_job_record)] "j2"
      "demo_user").storage "j2" = none ∧
    (delete_job (fun _ => true) [("j2", completed_job_record)] "j2"
      "demo_user").unlinked = some "temp_outputs/j2_planter.stl" := by
  have h := (C8_amended (fun _ => true) [("j2", completed_job_record)] "j2"
    "demo_user" completed_job_record rfl).2 rfl
  exact ⟨h.1, h.2.1, h.2.2⟩

/-- C9, counterexample.  The payload keyed image_width with a JSON list value
is valid JSON and a JSON object, so `json.loads` and `**` both succeed, and
pydantic raises a `ValidationError` — an exception class not named in the
`except (json.JSONDecodeError, TypeError)` handler — which escapes to the
outer handler and rejects the request with HTTP 500 instead of being silently
replaced by the defaults. -/
theorem C9_counterexample :
    resolve_generation_options (some (.pdict [("image_width", .plist [])])) =
      .error "ValidationError" ∧
    resolve_generation_options (some (.pdict [("image_width", .plist [])])) ≠
      .ok ({} : EnhancedGenerationOptions) := by
  refine ⟨rfl, ?_⟩
  intro h
  exact Except.noConfusion h

/-- C9, amended claim: a payload that is not valid JSON, or is valid JSON but
not an object (boolean, number, string, list or null, whose `**` splat raises
the caught TypeError), is silently replaced by the all-default options and the
request proceeds; a JSON object whose present known keys all validate is used
as given; but a JSON object with a value pydantic rejects raises a
ValidationError that the options handler does not catch, so the request is
rejected rather than defaulted. -/
theorem C9_amended :
    resolve_generation_options none = .ok {} ∧
    (∀ b : Bool, resolve_generation_options (some (.pbool b)) = .ok {}) ∧
    (∀ n : Int, resolve_generation_options (some (.pint n)) = .ok {}) ∧
    (∀ s : String, resolve_generation_options (some (.pstr s)) = .ok {}) ∧
    (∀ xs : List PyVal,
      resolve_generation_options (some (.plist xs)) = .ok {}) ∧
    resolve_generation_options (some .pnull) = .ok {} ∧
    (∀ kvs, validate_options kvs = none →
      resolve_generation_options (some (.pdict kvs)) =
        .error "ValidationError") ∧
    (∀ kvs o, validate_options kvs = some o →
      resolve_generation_options (some (.pdict kvs)) = .ok o) := by
  refine ⟨rfl, fun b => rfl, fun n => rfl, fun s => rfl, fun xs => rfl, rfl,
    ?_, ?_⟩
  · intro kvs h
    show (match validate_options kvs with
      | some o => Except.ok o
      | none => Except.error "ValidationError") = Except.error "ValidationError"
    rw [h]
  · intro kvs o h
    show (match validate_options kvs with
      | some o => Except.ok o
      | none => Except.error "ValidationError") = Except.ok o
    rw [h]

/-- C9, witness for the amended claim: a decode failure defaults, a boolean
image_width (which pydantic does not accept for an int field) is rejected, and
a valid texture_size override is used. -/
theorem C9_amended_witness :
    resolve_generation_options none = .ok {} ∧
    resolve_generation_options
      (some (.pdict [("image_width", .pbool true)])) =
      .error "ValidationError" ∧
    resolve_generation_options
      (some (.pdict [("texture_size", .pint 2048)])) =
      .ok (mk_options [("texture_size", .pint 2048)]) := by
  refine ⟨C9_amended.1,
    C9_amended.2.2.2.2.2.2.1 [("image_width", .pbool true)] rfl,
    C9_amended.2.2.2.2.2.2.2 [("texture_size", .pint 2048)]
      (mk_options [("texture_size", .pint 2048)]) rfl⟩

/-- C10: with the inference engine loaded, a batch of more than 10 requests is
rejected with the batch-size error without consulting the inference oracle at
all (the response is the same whatever oracle would have run); a batch of at
most 10 requests yields exactly one result entry per input with
total_processed equal to the input length, and the i-th entry is the i-th
inference outcome in place — a prediction entry on success, an error entry
(instead of aborting the rest) on a per-input failure. -/
theorem C10_batch {α : Type} (requests : List α)
    (run1 run2 : Nat → α → Except String (String × ℚ)) :
    (requests.length > 10 →
      batch_detect_breeds true requests run1 = .batch_too_large ∧
      batch_detect_breeds true requests run1 =
        batch_detect_breeds true requests run2) ∧
    (requests.length ≤ 10 →
      batch_detect_breeds true requests run1 =
        .done (batch_go run1 0 requests) requests.length ∧
      (batch_go run1 0 requests).length = requests.length ∧
      (∀ (i : Nat) (r : α), requests[i]? = some r →
        (batch_go run1 0 requests)[i]? = some
          (match run1 i r with
            | .ok p => .prediction i p.1 p.2
            | .error e => .failure i e))) := by
  constructor
  · intro hlen
    constructor
    · unfold batch_detect_breeds
      rw [if_neg (by simp), if_pos hlen]
    · unfold batch_detect_breeds
      rw [if_neg (by simp), if_pos hlen, if_neg (by simp), if_pos hlen]
  · intro hlen
    refine ⟨?_, batch_go_length run1 requests 0, ?_⟩
    · unfold batch_detect_breeds
      rw [if_neg (by simp), if_neg (by omega)]
      show BatchResponse.done (batch_go run1 0 requests)
          (batch_go run1 0 requests).length =
        BatchResponse.done (batch_go run1 0 requests) requests.length
      rw [batch_go_length]
    · intro i r h
      have hg := batch_go_get run1 requests 0 i r h
      simpa using hg

/-- C10, witness: an 11-request batch is rejected for size; a 2-request batch
with a failing second input yields the full result list, the first entry being
the prediction and the second the in-place error entry. -/
theorem C10_batch_witness :
    batch_detect_breeds true (List.replicate 11 "img") batch_run_ok =
      BatchResponse.batch_too_large ∧
    batch_detect_breeds true ["img0", "img1"] batch_run_mixed =
      .done (batch_go batch_run_mixed 0 ["img0", "img1"]) 2 ∧
    (batch_go batch_run_mixed 0 ["img0", "img1"])[0]? =
      some (.prediction 0 "Labrador" (9 / 10)) ∧
    (batch_go batch_run_mixed 0 ["img0", "img1"])[1]? =
      some (.failure 1 "Invalid base64 image") := by
  refine ⟨((C10_batch (List.replicate 11 "img") batch_run_ok batch_run_ok).1
      (by simp)).1,
    ((C10_batch ["img0", "img1"] batch_run_mixed batch_run_mixed).2
      (by simp)).1, ?_, ?_⟩
  · have h := ((C10_batch ["img0", "img1"] batch_run_mixed batch_run_mixed).2
      (by simp)).2.2 0 "img0" rfl
    exact h
  · have h := ((C10_batch ["img0", "img1"] batch_run_mixed batch_run_mixed).2
      (by simp)).2.2 1 "img1" rfl
    exact h

end PetPlantr
